import Mathlib

/-
Verification of the survey-app repository (src/app.py), a Streamlit field
data-collection tool for geotagged moth survey records.

The embedding below models, at the record level:
  - the Record Store (load_data / append_data / save_dataframe, lines 45-65),
  - the import/merge flow (lines 171-198),
  - the road-overlay geo-cache (download_roads_for_bounds, lines 67-109, and
    its download-button handler, lines 291-309),
  - the Location Selection State Machine (session initialization lines 212-226,
    the guard clause lines 228-232, the map-click handler lines 444-460,
    update_form_coords line 258, and the two record-submission forms).

Floating-point coordinates are modelled as exact rationals (ℚ); a pandas NaN /
missing value is modelled as Option.none.  A partition file is
Option (List SurveyRecord): none = file absent, some rows = the parsed rows
(a header-only file parses to some []).
-/

/-- One row of a project CSV, with the column schema
{日付, 時間, lat, lon, 種名, 方法, 採集者, 備考} of app.py (field names romanized:
date, time, lat, lon, species, method, collector, notes).  lat/lon are
Option ℚ: none models a missing / NaN cell. -/
structure SurveyRecord where
  date : String
  time : String
  lat : Option ℚ
  lon : Option ℚ
  species : String
  method : String
  collector : String
  notes : String
deriving DecidableEq, Repr

/-- A persisted partition file: none = the file does not exist, some rows = the
rows stored in it. -/
abbrev PartitionFile := Option (List SurveyRecord)

/-- Model of load_data (app.py lines 45-53): a missing file, and a file that
raises EmptyDataError, both yield an empty record sequence; otherwise the
stored rows are returned in order. -/
def load_data (file : PartitionFile) : List SurveyRecord :=
  match file with
  | Option.none => []
  | some rows => rows

/-- Model of append_data (app.py lines 55-61): load the current contents,
concatenate the one new record at the end, write the whole sequence back. -/
def append_data (file : PartitionFile) (new_record : SurveyRecord) : PartitionFile :=
  some (load_data file ++ [new_record])

/-- Model of save_dataframe (app.py lines 63-65): overwrite the partition with
exactly the given rows. -/
def save_dataframe (df : List SurveyRecord) : PartitionFile :=
  some df

/-- A sequence of append_data operations, applied left to right. -/
def append_all (file : PartitionFile) (records : List SurveyRecord) : PartitionFile :=
  records.foldl append_data file

theorem load_append_all (file : PartitionFile) (records : List SurveyRecord) :
    load_data (append_all file records) = load_data file ++ records := by
  induction records generalizing file with
  | nil => simp [append_all]
  | cons r rs ih =>
      have h1 : append_all file (r :: rs) = append_all (append_data file r) rs := rfl
      rw [h1, ih]
      simp [append_data, load_data]

/-- C4: for every sequence of N append operations on an initially empty
project partition, a subsequent load returns exactly the N appended records,
in the order appended. -/
theorem C4_append_monotonic (file : PartitionFile) (records : List SurveyRecord)
    (h : load_data file = []) :
    load_data (append_all file records) = records := by
  rw [load_append_all, h, List.nil_append]

/-- Witness for C4 at a concrete two-record append sequence on the absent
file. -/
theorem C4_append_monotonic_witness :
    load_data (append_all Option.none
      [⟨"2025-07-01", "20:15", some 35, some 139, "Actias aliena", "Light trap (灯火採集)", "M. Yamaguchi", ""⟩,
       ⟨"2025-07-02", "21:00", some 36, some 140, "Parasa consocia", "Net sweeping (ネット)", "M. Yamaguchi", ""⟩]) =
      [⟨"2025-07-01", "20:15", some 35, some 139, "Actias aliena", "Light trap (灯火採集)", "M. Yamaguchi", ""⟩,
       ⟨"2025-07-02", "21:00", some 36, some 140, "Parasa consocia", "Net sweeping (ネット)", "M. Yamaguchi", ""⟩] :=
  C4_append_monotonic Option.none _ rfl

/-- C9: overwriting a partition with the exact sequence obtained by loading it
is a no-op — load after overwrite(load()) yields the same records, same values,
same order. -/
theorem C9_overwrite_load_roundtrip (file : PartitionFile) :
    load_data (save_dataframe (load_data file)) = load_data file := rfl

/-
Import / merge flow (app.py lines 171-198).  An uploaded CSV batch is parsed,
its columns are checked against required_cols, and only when all required
columns are present are the merge / overwrite buttons offered.  A user action
is one of: pressing the merge button, pressing the overwrite button, or
pressing neither.
-/

/-- Required columns for an imported batch (app.py line 174):
{日付 = date, 時間 = time, lat, lon, 種名 = species}. -/
def required_cols : List String := ["日付", "時間", "lat", "lon", "種名"]

/-- An uploaded CSV batch: its column names and its parsed rows. -/
structure ImportBatch where
  columns : List String
  rows : List SurveyRecord

/-- Which button (if any) the user presses after a successful schema check. -/
inductive ImportAction
  | merge
  | overwrite
  | noButton
deriving DecidableEq

/-- Model of the column check on app.py line 177:
all(col in import_df.columns for col in required_cols). -/
def schema_ok (batch : ImportBatch) : Bool :=
  required_cols.all (fun c => batch.columns.contains c)

/-- Error message of app.py line 196. -/
def schema_error_message : String :=
  "エラー: CSVの形式が異なります（必要な列が見つかりません）。"

/-- Model of the import flow (app.py lines 171-198): returns the partition
file after the flow, and the surfaced error message, if any.  On a schema
mismatch no button is offered and no save happens; otherwise merge
concatenates the batch after the current rows and overwrite replaces them. -/
def import_flow (file : PartitionFile) (batch : ImportBatch) (action : ImportAction) :
    PartitionFile × Option String :=
  if schema_ok batch then
    match action with
    | ImportAction.merge => (save_dataframe (load_data file ++ batch.rows), Option.none)
    | ImportAction.overwrite => (save_dataframe batch.rows, Option.none)
    | ImportAction.noButton => (file, Option.none)
  else
    (file, some schema_error_message)

/-- C5: for every imported batch missing any required column, the whole import
is rejected with a schema error and the stored records are left unchanged,
whatever action is attempted. -/
theorem C5_import_rejection (file : PartitionFile) (batch : ImportBatch)
    (action : ImportAction) (c : String) (hc : c ∈ required_cols)
    (hmiss : c ∉ batch.columns) :
    import_flow file batch action = (file, some schema_error_message) := by
  have hschema : schema_ok batch = false := by
    cases hs : schema_ok batch with
    | false => rfl
    | true =>
        rw [schema_ok, List.all_eq_true] at hs
        exact absurd (by simpa using hs c hc) hmiss
  simp [import_flow, hschema]

/-- Witness for C5: a batch carrying every column except 種名 (species) is
rejected and the absent partition file stays absent. -/
theorem C5_import_rejection_witness :
    "種名" ∈ required_cols ∧ "種名" ∉ (["日付", "時間", "lat", "lon"] : List String) ∧
    import_flow Option.none ⟨["日付", "時間", "lat", "lon"], []⟩ ImportAction.merge =
      (Option.none, some schema_error_message) :=
  ⟨by decide, by decide,
    C5_import_rejection Option.none ⟨["日付", "時間", "lat", "lon"], []⟩
      ImportAction.merge "種名" (by decide) (by decide)⟩

/-
Geo-cache: road overlay download (app.py lines 67-109) and the download
button handler (app.py lines 291-309).  The Overpass network interaction is
modelled as an abstract response: either a parsed element list or a
transport/parse failure (any exception in the try block).  The overlay file
OFFLINE_ROADS is modelled as Option (List RoadFeature).
-/

/-- One element of an Overpass response: its type tag, its geometry when the
geometry key is present (an ordered list of (lon, lat) points), and its tag
properties. -/
structure OverpassElement where
  elementType : String
  geometry : Option (List (ℚ × ℚ))
  tags : List (String × String)
deriving DecidableEq

/-- Outcome of the network interaction inside download_roads_for_bounds: the
parsed element list on success, or the message of the raised exception. -/
inductive OverpassResponse
  | ok (elements : List OverpassElement)
  | failure (err : String)

/-- One converted overlay feature: a LineString geometry plus the element's
tag properties (app.py lines 82-92). -/
structure RoadFeature where
  coordinates : List (ℚ × ℚ)
  properties : List (String × String)
deriving DecidableEq

/-- Conversion of one Overpass element (app.py lines 81-92): only elements
with type "way" and a present geometry key become features. -/
def element_to_feature (e : OverpassElement) : Option RoadFeature :=
  if e.elementType = "way" then
    match e.geometry with
    | some pts => some ⟨pts, e.tags⟩
    | Option.none => Option.none
  else
    Option.none

/-- Message returned on zero convertible features (app.py line 100). -/
def not_found_message : String := "指定範囲内に道路データが見つかりませんでした。"

/-- Result of download_roads_for_bounds: the overlay file after the call, the
(success, message) pair the function returns, and whether the in-memory cache
was invalidated (load_road_geojson.clear()). -/
structure DownloadResult where
  roads_file : Option (List RoadFeature)
  success : Bool
  message : String
  cache_cleared : Bool
deriving DecidableEq

/-- Model of download_roads_for_bounds (app.py lines 67-109): on a transport or
parse failure the exception is caught and (False, error message) returned with
the overlay file untouched; on zero convertible features (False, not-found
message) is returned before any file write; otherwise the feature collection
is written to the overlay file, the cache is invalidated, and
(True, count message) returned. -/
def download_roads_for_bounds (net : OverpassResponse)
    (roads_file : Option (List RoadFeature)) : DownloadResult :=
  match net with
  | OverpassResponse.failure e =>
      ⟨roads_file, false, "エラーが発生しました: " ++ e, false⟩
  | OverpassResponse.ok elements =>
      let features := elements.filterMap element_to_feature
      if features.isEmpty then
        ⟨roads_file, false, not_found_message, false⟩
      else
        ⟨some features, true, toString features.length ++ " 本の道路データをダウンロードしました。", true⟩

/-- Model of load_road_geojson (app.py lines 35-43): reads the overlay file,
returning none when it is absent. -/
def load_road_geojson (roads_file : Option (List RoadFeature)) :
    Option (List RoadFeature) :=
  roads_file

/-- Viewport bounds reported by the map (st.session_state.map_bounds). -/
structure MapBounds where
  south : ℚ
  west : ℚ
  north : ℚ
  east : ℚ
deriving DecidableEq

/-- Error message of app.py line 301. -/
def too_large_message : String := "範囲が広すぎます。ズームインしてください。"

/-- Result of the download button handler: whether the network was contacted,
the overlay file afterwards, and the surfaced message. -/
structure HandlerResult where
  network_called : Bool
  roads_file : Option (List RoadFeature)
  message : String
deriving DecidableEq

/-- Model of the download button handler (app.py lines 291-309): computes
lat_diff = |north - south| and lon_diff = |east - west|; if either exceeds
0.5 degrees it reports an error without any network call; otherwise it calls
download_roads_for_bounds. -/
def download_button_handler (b : MapBounds) (net : OverpassResponse)
    (roads_file : Option (List RoadFeature)) : HandlerResult :=
  let lat_diff := |b.north - b.south|
  let lon_diff := |b.east - b.west|
  if lat_diff > 0.5 ∨ lon_diff > 0.5 then
    ⟨false, roads_file, too_large_message⟩
  else
    let r := download_roads_for_bounds net roads_file
    ⟨true, r.roads_file, r.message⟩

/-- C6: the handler rejects, before any network call, every bounding box whose
latitude or longitude span exceeds 0.5 degrees, and proceeds to the network
call whenever both spans are at most 0.5 degrees. -/
theorem C6_bbox_guard (b : MapBounds) (net : OverpassResponse)
    (roads_file : Option (List RoadFeature)) :
    ((|b.north - b.south| > 0.5 ∨ |b.east - b.west| > 0.5) →
      download_button_handler b net roads_file =
        ⟨false, roads_file, too_large_message⟩) ∧
    ((|b.north - b.south| ≤ 0.5 ∧ |b.east - b.west| ≤ 0.5) →
      (download_button_handler b net roads_file).network_called = true) := by
  constructor
  · intro h
    simp [download_button_handler, h]
  · intro h
    have hno : ¬ (|b.north - b.south| > (0.5 : ℚ) ∨ |b.east - b.west| > 0.5) := by
      push_neg
      exact h
    simp [download_button_handler, hno]

/-- Witness for C6: a box of latitude span 0.6 is rejected without a network
call, and a box of spans 0.4 proceeds to the network call. -/
theorem C6_bbox_guard_witness :
    download_button_handler ⟨35, 139, 35.6, 139.2⟩ (OverpassResponse.ok []) Option.none =
      ⟨false, Option.none, too_large_message⟩ ∧
    (download_button_handler ⟨35, 139, 35.4, 139.4⟩ (OverpassResponse.ok []) Option.none).network_called = true :=
  ⟨(C6_bbox_guard ⟨35, 139, 35.6, 139.2⟩ (OverpassResponse.ok []) Option.none).1
      (Or.inl (by norm_num [abs_of_nonneg])),
   (C6_bbox_guard ⟨35, 139, 35.4, 139.4⟩ (OverpassResponse.ok []) Option.none).2
      ⟨by norm_num [abs_of_nonneg], by norm_num [abs_of_nonneg]⟩⟩

/-- Cached overlay used as the pre-existing state in the C7 theorems. -/
def sample_overlay : List RoadFeature :=
  [⟨[(139, 35), (139.1, 35.1)], [("highway", "residential")]⟩]

/-- C7 counterexample: the claim requires the zero-feature outcome to carry a
non-fatal status rather than a failure, but download_roads_for_bounds returns
success = false on an empty element list — the very flag its failure branch
returns, and the caller (app.py lines 304-309) surfaces both through the same
st.error path. -/
theorem C7_counterexample :
    (download_roads_for_bounds (OverpassResponse.ok []) (some sample_overlay)).success = false ∧
    (download_roads_for_bounds (OverpassResponse.failure "HTTPError") (some sample_overlay)).success = false :=
  ⟨rfl, rfl⟩

/-- C7 amended: on a successful query with zero convertible features no
overlay file is written — the previously cached overlay is untouched and
still loadable, the in-memory cache is not invalidated — and the not-found
message is returned; but the returned status flag is False, the same flag as
the failure branch. -/
theorem C7_empty_result_amended (elements : List OverpassElement)
    (roads_file : Option (List RoadFeature))
    (h : elements.filterMap element_to_feature = []) :
    (download_roads_for_bounds (OverpassResponse.ok elements) roads_file).roads_file = roads_file ∧
    load_road_geojson (download_roads_for_bounds (OverpassResponse.ok elements) roads_file).roads_file = roads_file ∧
    (download_roads_for_bounds (OverpassResponse.ok elements) roads_file).message = not_found_message ∧
    (download_roads_for_bounds (OverpassResponse.ok elements) roads_file).success = false ∧
    (download_roads_for_bounds (OverpassResponse.ok elements) roads_file).cache_cleared = false := by
  simp [download_roads_for_bounds, load_road_geojson, h]

/-- Witness for C7 amended: a response holding one non-way element converts to
zero features; the cached overlay survives untouched and loadable. -/
theorem C7_empty_result_amended_witness :
    (download_roads_for_bounds (OverpassResponse.ok [⟨"node", Option.none, []⟩]) (some sample_overlay)).roads_file = some sample_overlay ∧
    load_road_geojson (download_roads_for_bounds (OverpassResponse.ok [⟨"node", Option.none, []⟩]) (some sample_overlay)).roads_file = some sample_overlay ∧
    (download_roads_for_bounds (OverpassResponse.ok [⟨"node", Option.none, []⟩]) (some sample_overlay)).message = not_found_message ∧
    (download_roads_for_bounds (OverpassResponse.ok [⟨"node", Option.none, []⟩]) (some sample_overlay)).success = false ∧
    (download_roads_for_bounds (OverpassResponse.ok [⟨"node", Option.none, []⟩]) (some sample_overlay)).cache_cleared = false :=
  C7_empty_result_amended [⟨"node", Option.none, []⟩] (some sample_overlay) rfl

/-
Location Selection State Machine (app.py lines 212-260, 444-460, and the two
record-submission forms).  The session coordinate state consists of the
canonical coordinate selected_lat/selected_lon and the manual-input mirror
input_lat/input_lon.
-/

/-- Default fallback latitude (app.py lines 222, 225, 230, 492). -/
def default_lat : ℚ := 35.6895

/-- Default fallback longitude (app.py lines 223, 226, 232, 493). -/
def default_lon : ℚ := 139.6917

/-- Model of df_init.dropna(subset=['lat', 'lon']) (app.py line 216): keep the
rows whose lat and lon cells are both present. -/
def dropna_latlon (df : List SurveyRecord) : List SurveyRecord :=
  df.filter (fun r => r.lat.isSome && r.lon.isSome)

/-- Model of the seeding of selected_lat/selected_lon (app.py lines 212-226):
the last row with both coordinates present, or the fixed default point when
no such row exists. -/
def init_selected (df_init : List SurveyRecord) : ℚ × ℚ :=
  match (dropna_latlon df_init).getLast? with
  | some last_rec => (last_rec.lat.getD 0, last_rec.lon.getD 0)
  | Option.none => (default_lat, default_lon)

/-- Model of one component of the guard clause (app.py lines 228-232): on a
numeric session value, `not x or x == 0` holds exactly when the value is
missing (undefined) or equals 0, and then the component is reset to its
default. -/
def guard_coord (x : Option ℚ) (dflt : ℚ) : ℚ :=
  match x with
  | Option.none => dflt
  | some v => if v = 0 then dflt else v

/-- Guard clause applied to the stored canonical coordinate pair. -/
def guard_pair (lat lon : Option ℚ) : ℚ × ℚ :=
  (guard_coord lat default_lat, guard_coord lon default_lon)

/-- Session coordinate state: the canonical coordinate and the manual-input
mirror. -/
structure AppState where
  selected_lat : ℚ
  selected_lon : ℚ
  input_lat : ℚ
  input_lon : ℚ
deriving DecidableEq, Repr

/-- Guard clause of one script run (app.py lines 228-232), acting on the
canonical coordinate only: the input mirror is not touched. -/
def run_guard (s : AppState) : AppState :=
  { s with
    selected_lat := guard_coord (some s.selected_lat) default_lat
    selected_lon := guard_coord (some s.selected_lon) default_lon }

/-- Session initialization (app.py lines 212-237): seed the canonical
coordinate from the project data, run the guard clause, then mirror the
canonical coordinate into the input fields. -/
def init_app_state (df_init : List SurveyRecord) : AppState :=
  let p := init_selected df_init
  let g := guard_pair (some p.1) (some p.2)
  ⟨g.1, g.2, g.1, g.2⟩

/-- Manual edit of the latitude field (app.py line 469): the widget writes
st.session_state.input_lat, then on_change = update_form_coords (app.py lines
258-260) copies both input fields into the canonical coordinate. -/
def set_input_lat (s : AppState) (v : ℚ) : AppState :=
  let s1 := { s with input_lat := v }
  { s1 with selected_lat := s1.input_lat, selected_lon := s1.input_lon }

/-- Manual edit of the longitude field (app.py line 471), as set_input_lat. -/
def set_input_lon (s : AppState) (v : ℚ) : AppState :=
  let s1 := { s with input_lon := v }
  { s1 with selected_lat := s1.input_lat, selected_lon := s1.input_lon }

/-- Model of the map-click handler (app.py lines 448-460): a click with both
components nonzero and farther than 1e-6 degrees from the canonical
coordinate in some component overwrites the canonical coordinate and the
input mirror and triggers st.rerun(); every other click leaves the state
unchanged with no rerun.  The Bool is the rerun flag. -/
def handle_click (s : AppState) (clicked_lat clicked_lon : ℚ) : AppState × Bool :=
  if clicked_lat ≠ 0 ∧ clicked_lon ≠ 0 then
    if |clicked_lat - s.selected_lat| > 1/1000000 ∨ |clicked_lon - s.selected_lon| > 1/1000000 then
      (⟨clicked_lat, clicked_lon, clicked_lat, clicked_lon⟩, true)
    else
      (s, false)
  else
    (s, false)

/-- Coordinates written by the quick-record form (app.py lines 488-494): the
canonical coordinate, with a fallback to the default point when the latitude
is falsy or 0 (only the latitude is tested). -/
def quick_record_coords (s : AppState) : ℚ × ℚ :=
  if s.selected_lat = 0 then (default_lat, default_lon)
  else (s.selected_lat, s.selected_lon)

/-- Coordinates written by the detailed manual-record form (app.py lines
559-560): the input-mirror fields input_lat/input_lon. -/
def manual_record_coords (s : AppState) : ℚ × ℚ :=
  (s.input_lat, s.input_lon)

/-- Quick-record form submission (app.py lines 477-513): appends a record
whose lat/lon are quick_record_coords. -/
def quick_submit (s : AppState) (file : PartitionFile)
    (species date time method collector notes : String) : PartitionFile :=
  append_data file
    ⟨date, time, some (quick_record_coords s).1, some (quick_record_coords s).2,
     species, method, collector, notes⟩

/-- Detailed manual-record form submission (app.py lines 550-572): appends a
record whose lat/lon are manual_record_coords. -/
def manual_submit (s : AppState) (file : PartitionFile)
    (species date time method collector notes : String) : PartitionFile :=
  append_data file
    ⟨date, time, some (manual_record_coords s).1, some (manual_record_coords s).2,
     species, method, collector, notes⟩

theorem guard_coord_ne_zero (x : Option ℚ) (dflt : ℚ) (h : dflt ≠ 0) :
    guard_coord x dflt ≠ 0 := by
  cases x with
  | none => simp [guard_coord, h]
  | some v =>
      by_cases hv : v = 0
      · simpa [guard_coord, hv] using h
      · simp [guard_coord, hv]

/-- A reachable session state for C1: initialize on an empty project, the
user types 0 into the longitude field (update_form_coords copies it into the
canonical coordinate), and the guard clause of the next script run resets the
canonical longitude — but not the input mirror. -/
def c1_state : AppState := run_guard (set_input_lon (init_app_state []) 0)

theorem c1_state_eq : c1_state = ⟨default_lat, default_lon, default_lat, 0⟩ := by
  norm_num [c1_state, run_guard, set_input_lon, init_app_state, init_selected,
    dropna_latlon, guard_pair, guard_coord, default_lat, default_lon]

/-- C1 counterexample: in c1_state the canonical coordinate at the moment of
submission is the default point, yet the detailed manual-record form appends
a record with lon = 0 — the stale input-mirror value, not the canonical
longitude. -/
theorem C1_counterexample :
    c1_state.selected_lat = default_lat ∧
    c1_state.selected_lon = default_lon ∧
    load_data (manual_submit c1_state Option.none "Actias aliena" "2025-07-01" "20:15"
        "Light trap (灯火採集)" "M. Yamaguchi" "") =
      [⟨"2025-07-01", "20:15", some default_lat, some 0, "Actias aliena",
        "Light trap (灯火採集)", "M. Yamaguchi", ""⟩] ∧
    (0 : ℚ) ≠ default_lon := by
  refine ⟨?_, ?_, ?_, ?_⟩
  · rw [c1_state_eq]
  · rw [c1_state_eq]
  · rw [c1_state_eq]
    simp [manual_submit, manual_record_coords, append_data, load_data]
  · norm_num [default_lon]

/-- C1 amended: after the guard clause of the current script run the
quick-record form appends exactly the canonical coordinate, while the
detailed manual-record form appends the input-mirror fields, which can differ
from the canonical coordinate when the guard has reset a zeroed component. -/
theorem C1_amended_submission_coords (s : AppState) (file : PartitionFile)
    (species date time method collector notes : String) :
    quick_submit (run_guard s) file species date time method collector notes =
      some (load_data file ++
        [⟨date, time, some (run_guard s).selected_lat, some (run_guard s).selected_lon,
          species, method, collector, notes⟩]) ∧
    manual_submit s file species date time method collector notes =
      some (load_data file ++
        [⟨date, time, some s.input_lat, some s.input_lon,
          species, method, collector, notes⟩]) := by
  constructor
  · have hlat : (run_guard s).selected_lat ≠ 0 :=
      guard_coord_ne_zero (some s.selected_lat) default_lat (by norm_num [default_lat])
    simp [quick_submit, quick_record_coords, hlat, append_data]
  · rfl

/-- Record at coordinate (35, 139), used in the initialization theorems. -/
def rec_35_139 : SurveyRecord :=
  ⟨"2025-07-01", "20:15", some 35, some 139, "Actias aliena",
   "Light trap (灯火採集)", "M. Yamaguchi", ""⟩

/-- Most recent record carrying the (0, 0) sentinel coordinate. -/
def rec_sentinel : SurveyRecord :=
  ⟨"2025-07-02", "21:00", some 0, some 0, "Parasa consocia",
   "Light trap (灯火採集)", "M. Yamaguchi", ""⟩

/-- C2 counterexample: the seeding lookup only drops missing coordinates, so
with a most-recent record at the (0, 0) sentinel the lookup returns (0, 0)
itself — not the earlier valid coordinate (35, 139) the claim demands. -/
theorem C2_counterexample :
    init_selected [rec_35_139, rec_sentinel] = ((0 : ℚ), (0 : ℚ)) := rfl

/-- C2 amended: the seeding lookup filters only missing (NaN) coordinates,
not the (0, 0) sentinel: the seed is the most recent record with both
coordinates present, whatever their values; the separate guard clause then
replaces each zero component of the seed with that component's default;
when no record has both coordinates present the fixed default point is
used. -/
theorem C2_amended_init (df : List SurveyRecord) :
    ((dropna_latlon df).getLast? = Option.none →
      init_app_state df = ⟨default_lat, default_lon, default_lat, default_lon⟩) ∧
    (∀ r, (dropna_latlon df).getLast? = some r →
      init_selected df = (r.lat.getD 0, r.lon.getD 0) ∧
      init_app_state df =
        ⟨guard_coord (some (r.lat.getD 0)) default_lat,
         guard_coord (some (r.lon.getD 0)) default_lon,
         guard_coord (some (r.lat.getD 0)) default_lat,
         guard_coord (some (r.lon.getD 0)) default_lon⟩) := by
  constructor
  · intro h
    simp [init_app_state, init_selected, guard_pair, guard_coord, h,
      default_lat, default_lon]
  · intro r h
    constructor
    · simp [init_selected, h]
    · simp [init_app_state, init_selected, guard_pair, h]

/-- Witness for C2 amended: the empty project seeds the default point, and a
project whose last record sits at (35, 139) seeds (35, 139). -/
theorem C2_amended_init_witness :
    init_app_state [] = ⟨default_lat, default_lon, default_lat, default_lon⟩ ∧
    init_selected [rec_35_139] = ((35 : ℚ), (139 : ℚ)) :=
  ⟨(C2_amended_init []).1 rfl,
   ((C2_amended_init [rec_35_139]).2 rec_35_139 rfl).1⟩

/-- C3 counterexample: with canonical coordinate (40, 0) — the longitude
zeroed, the latitude valid — the guard resets only the longitude: the result
(40, 139.6917) is not the fixed default point the claim demands for both
components. -/
theorem C3_counterexample :
    guard_pair (some 40) (some 0) = ((40 : ℚ), default_lon) ∧
    guard_pair (some 40) (some 0) ≠ (default_lat, default_lon) := by
  constructor
  · rfl
  · intro h
    have h1 : (40 : ℚ) = default_lat := congrArg Prod.fst h
    norm_num [default_lat] at h1

/-- C3 amended: the guard clause acts on each component independently: a
component that is 0 or undefined is reset to that component's default, while
a nonzero defined component keeps its value. -/
theorem C3_amended_guard (lat lon : Option ℚ) :
    ((lat = Option.none ∨ lat = some 0) → (guard_pair lat lon).1 = default_lat) ∧
    ((lon = Option.none ∨ lon = some 0) → (guard_pair lat lon).2 = default_lon) ∧
    (∀ v : ℚ, lat = some v → v ≠ 0 → (guard_pair lat lon).1 = v) ∧
    (∀ v : ℚ, lon = some v → v ≠ 0 → (guard_pair lat lon).2 = v) := by
  refine ⟨?_, ?_, ?_, ?_⟩
  · rintro (h | h) <;> simp [guard_pair, guard_coord, h]
  · rintro (h | h) <;> simp [guard_pair, guard_coord, h]
  · intro v h hv
    simp [guard_pair, guard_coord, h, hv]
  · intro v h hv
    simp [guard_pair, guard_coord, h, hv]

/-- Witness for C3 amended at the concrete state (40, 0): the valid latitude
survives, the zeroed longitude is reset to its default. -/
theorem C3_amended_guard_witness :
    (guard_pair (some 40) (some 0)).1 = 40 ∧
    (guard_pair (some 40) (some 0)).2 = default_lon :=
  ⟨(C3_amended_guard (some 40) (some 0)).2.2.1 40 rfl (by norm_num),
   (C3_amended_guard (some 40) (some 0)).2.1 (Or.inr rfl)⟩

/-- Session state for the C8 counterexample: canonical coordinate
(0.00001, 139.6917). -/
def c8_state : AppState := ⟨1/100000, 139.6917, 1/100000, 139.6917⟩

/-- C8 counterexample: a click at (0, 139.6917) differs from the canonical
coordinate of c8_state by exactly 1e-5 degrees in latitude — more than the
1e-6 tolerance — yet the zero-coordinate check discards it: the state is
unchanged and no redraw is triggered, where the claim demands an update and a
redraw. -/
theorem C8_counterexample :
    |(0 : ℚ) - c8_state.selected_lat| = 1/100000 ∧
    (1/100000 : ℚ) > 1/1000000 ∧
    handle_click c8_state 0 139.6917 = (c8_state, false) := by
  refine ⟨?_, by norm_num, ?_⟩
  · rw [show (0 : ℚ) - c8_state.selected_lat = -(1/100000) by norm_num [c8_state]]
    rw [abs_neg]
    norm_num
  · simp [handle_click]

/-- C8 amended: part one of the claim is unrestricted — a click within 1e-6
degrees of the canonical coordinate in both components changes nothing and
triggers no redraw; part two holds only for clicks with both components
nonzero — such a click farther than 1e-6 degrees in some component overwrites
the canonical coordinate and the input mirror and triggers a redraw (a click
with a zero component is discarded whatever its distance). -/
theorem C8_amended_click_tolerance (s : AppState) (clicked_lat clicked_lon : ℚ) :
    ((|clicked_lat - s.selected_lat| ≤ 1/1000000 ∧ |clicked_lon - s.selected_lon| ≤ 1/1000000) →
      handle_click s clicked_lat clicked_lon = (s, false)) ∧
    (clicked_lat ≠ 0 → clicked_lon ≠ 0 →
      (|clicked_lat - s.selected_lat| > 1/1000000 ∨ |clicked_lon - s.selected_lon| > 1/1000000) →
      handle_click s clicked_lat clicked_lon =
        (⟨clicked_lat, clicked_lon, clicked_lat, clicked_lon⟩, true)) := by
  constructor
  · intro h
    have hno : ¬ (|clicked_lat - s.selected_lat| > (1/1000000 : ℚ) ∨
        |clicked_lon - s.selected_lon| > 1/1000000) := by
      push_neg
      exact h
    unfold handle_click
    by_cases hz : clicked_lat ≠ 0 ∧ clicked_lon ≠ 0
    · rw [if_pos hz, if_neg hno]
    · rw [if_neg hz]
  · intro h1 h2 h3
    unfold handle_click
    rw [if_pos ⟨h1, h2⟩, if_pos h3]

/-- Witness for C8 amended: at canonical (35.6895, 139.6917), clicking the
identical point changes nothing, and clicking (36, 140) moves the canonical
coordinate and the mirror and triggers a redraw. -/
theorem C8_amended_click_tolerance_witness :
    handle_click ⟨35.6895, 139.6917, 35.6895, 139.6917⟩ 35.6895 139.6917 =
      (⟨35.6895, 139.6917, 35.6895, 139.6917⟩, false) ∧
    handle_click ⟨35.6895, 139.6917, 35.6895, 139.6917⟩ 36 140 =
      (⟨36, 140, 36, 140⟩, true) :=
  ⟨(C8_amended_click_tolerance ⟨35.6895, 139.6917, 35.6895, 139.6917⟩ 35.6895 139.6917).1
      ⟨by norm_num, by norm_num⟩,
   (C8_amended_click_tolerance ⟨35.6895, 139.6917, 35.6895, 139.6917⟩ 36 140).2
      (by norm_num) (by norm_num)
      (Or.inl (by norm_num [abs_of_nonneg]))⟩

/-- C10: every map click whose latitude or longitude component is exactly 0
is ignored entirely — canonical coordinate and input mirror unchanged, no
redraw — regardless of its distance from the canonical coordinate. -/
theorem C10_zero_click_ignored (s : AppState) (clicked_lat clicked_lon : ℚ)
    (h : clicked_lat = 0 ∨ clicked_lon = 0) :
    handle_click s clicked_lat clicked_lon = (s, false) := by
  have hz : ¬ (clicked_lat ≠ 0 ∧ clicked_lon ≠ 0) := by
    rcases h with h | h <;> simp [h]
  simp [handle_click, hz]

/-- Witness for C10: a click at (0, 140), far from the canonical coordinate,
changes nothing and triggers no redraw. -/
theorem C10_zero_click_ignored_witness :
    handle_click ⟨35.6895, 139.6917, 35.6895, 139.6917⟩ 0 140 =
      (⟨35.6895, 139.6917, 35.6895, 139.6917⟩, false) :=
  C10_zero_click_ignored ⟨35.6895, 139.6917, 35.6895, 139.6917⟩ 0 140 (Or.inl rfl)
